import Mathlib

/-!
Verification development for the KernelView-Go system-information collector.

The Go sources (gather/gather.go, main.go, display.go) are shallowly embedded
below.  External effects (subprocess output, environment variables, gopsutil
query results, PATH resolution, network state) are packaged into a `World`
record; each gathering function of the source becomes a pure Lean function of
the `World`.  Machine floating-point values returned by gopsutil (MHz, usage
percentages) are modelled as rationals, and Go's fixed-point formatting verbs
are modelled by decimal rounding on rationals; none of the verified claims
depends on binary-float rounding ties.
-/

set_option maxHeartbeats 1000000

namespace KernelView

/-! ## String helpers mirroring Go's strings / strconv behavior -/

/-- Digits of a decimal numeral; `none` unless the list is non-empty and all digits.
Mirrors the digit-run requirement of Go's strconv.Atoi. -/
def parseDigits? (cs : List Char) : Option Nat :=
  if cs.isEmpty then none
  else if cs.all Char.isDigit then
    some (cs.foldl (fun a c => a * 10 + (c.toNat - 48)) 0)
  else none

/-- Go strconv.Atoi: optional sign followed by one or more digits, nothing else. -/
def atoi? (s : String) : Option Int :=
  match s.data with
  | '+' :: cs => (parseDigits? cs).map Int.ofNat
  | '-' :: cs => (parseDigits? cs).map (fun n => -(n : Int))
  | cs => (parseDigits? cs).map Int.ofNat

/-- Go strings.Title for the ASCII strings this program feeds it: upper-case a
letter that does not follow a letter. -/
def titleChars : Bool → List Char → List Char
  | _, [] => []
  | prev, c :: cs =>
    (if c.isAlpha && !prev then c.toUpper else c) :: titleChars c.isAlpha cs

def titleGo (s : String) : String := String.mk (titleChars false s.data)

/-- Is `p` a prefix of `l`? (Char-list matching used by the substring search.) -/
def matchesAt : List Char → List Char → Bool
  | [], _ => true
  | _ :: _, [] => false
  | p :: ps, c :: cs => p = c && matchesAt ps cs

/-- Does `l` contain `sub` as a contiguous run? -/
def listContainsSub (sub : List Char) : List Char → Bool
  | [] => sub.isEmpty
  | c :: cs => matchesAt sub (c :: cs) || listContainsSub sub cs

/-- Go strings.Contains. -/
def containsSub (s sub : String) : Bool := listContainsSub sub.data s.data

/-- Go strings.TrimSuffix: drop one trailing occurrence of `suf` if present. -/
def trimSuffixGo (s suf : String) : String :=
  if suf.data.isSuffixOf s.data then
    String.mk (s.data.take (s.data.length - suf.data.length))
  else s

/-- Go strings.TrimSpace (on the ASCII whitespace this program encounters). -/
def trimGo (s : String) : String :=
  String.mk (((s.data.dropWhile Char.isWhitespace).reverse.dropWhile Char.isWhitespace).reverse)

/-- Go strings.ToLower on the ASCII strings this program feeds it. -/
def toLowerGo (s : String) : String := String.mk (s.data.map Char.toLower)

/-- Split worker for `splitOnGo`; the fuel argument (initialised to the input
length) only certifies termination, one unit per consumed character. -/
def splitOnFuel (sep : List Char) : Nat → List Char → List Char → List (List Char)
  | _, acc, [] => [acc.reverse]
  | 0, acc, rest => [acc.reverse ++ rest]
  | fuel + 1, acc, c :: cs =>
    if sep ≠ [] ∧ matchesAt sep (c :: cs) then
      acc.reverse :: splitOnFuel sep fuel [] ((c :: cs).drop sep.length)
    else splitOnFuel sep fuel (c :: acc) cs

/-- Go strings.Split with a non-empty separator. -/
def splitOnGo (s sep : String) : List String :=
  (splitOnFuel sep.data s.data.length [] s.data).map String.mk

/-- Go strings.Replace(s, old, new, 1): replace the first occurrence only. -/
def replaceFirst (s old new : String) : String :=
  match splitOnGo s old with
  | [] => s
  | [_] => s
  | x :: rest => x ++ new ++ String.intercalate old rest

def fieldsAux : List Char → List Char → List (List Char)
  | acc, [] => if acc.isEmpty then [] else [acc.reverse]
  | acc, c :: cs =>
    if c.isWhitespace then
      if acc.isEmpty then fieldsAux [] cs else acc.reverse :: fieldsAux [] cs
    else fieldsAux (c :: acc) cs

/-- Go strings.Fields: whitespace-separated fields. -/
def fieldsGo (s : String) : List String := (fieldsAux [] s.data).map String.mk

/-- Byte-wise (ASCII: codepoint-wise) lexicographic order used by Go's
sort.Strings. -/
def leChars : List Char → List Char → Bool
  | [], _ => true
  | _ :: _, [] => false
  | a :: as, b :: bs => if a = b then leChars as bs else decide (a < b)

def strLe (a b : String) : Bool := leChars a.data b.data

def intLe (a b : Int) : Bool := decide (a ≤ b)

def insertLe (le : α → α → Bool) (a : α) : List α → List α
  | [] => [a]
  | b :: l => if le a b then a :: b :: l else b :: insertLe le a l

/-- Insertion sort.  Go's sort.Ints / sort.Strings sort in place with a
different algorithm, but for the total orders used here the sorted sequence
is unique, so any sort denotes the same function. -/
def sortGo (le : α → α → Bool) : List α → List α
  | [] => []
  | a :: l => insertLe le a (sortGo le l)

/-- Go fixed-point formatting verb %.<d>f on a rational: round to `d` decimal
places (half away from zero on the magnitudes this program formats) and render. -/
def fmtFixed (d : Nat) (q : ℚ) : String :=
  let n : Int := round (q * (10 : ℚ) ^ d)
  if d = 0 then toString n
  else
    let m := n.natAbs
    let ip := m / 10 ^ d
    let fp := m % 10 ^ d
    let fs := toString fp
    let pad := String.mk (List.replicate (d - fs.length) '0')
    (if n < 0 then "-" else "") ++ toString ip ++ "." ++ pad ++ fs

/-! ### The two regular expressions of the source

gather.go uses two regexps: `(\d+\.\d+(\.\d+)?)` (shell version extraction)
and `PRETTY_NAME="([^"]+)"` (os-release parsing).  Both are implemented
directly as leftmost-match scanners. -/

/-- Match `\d+\.\d+(\.\d+)?` greedily at the head of the list. -/
def matchVersionAt (cs : List Char) : Option (List Char) :=
  let d1 := cs.takeWhile Char.isDigit
  let r1 := cs.dropWhile Char.isDigit
  if d1.isEmpty then none
  else
    match r1 with
    | '.' :: r2 =>
      let d2 := r2.takeWhile Char.isDigit
      let r3 := r2.dropWhile Char.isDigit
      if d2.isEmpty then none
      else
        match r3 with
        | '.' :: r4 =>
          let d3 := r4.takeWhile Char.isDigit
          if d3.isEmpty then some (d1 ++ '.' :: d2)
          else some (d1 ++ '.' :: d2 ++ '.' :: d3)
        | _ => some (d1 ++ '.' :: d2)
    | _ => none

/-- Leftmost match of the version pattern. -/
def findVersionCore : List Char → Option (List Char)
  | [] => none
  | c :: cs =>
    match matchVersionAt (c :: cs) with
    | some m => some m
    | none => findVersionCore cs

/-- Go regexp FindString for `(\d+\.\d+(\.\d+)?)`: leftmost match or "". -/
def findVersion (s : String) : String :=
  ((findVersionCore s.data).map String.mk).getD ""

def prettyNamePat : List Char := "PRETTY_NAME=\"".data

/-- Match `PRETTY_NAME="([^"]+)"` at the head of the list, returning the capture. -/
def prettyNameAt (cs : List Char) : Option (List Char) :=
  if matchesAt prettyNamePat cs then
    let rest := cs.drop prettyNamePat.length
    let body := rest.takeWhile (fun c => c ≠ '"')
    let rest2 := rest.dropWhile (fun c => c ≠ '"')
    if body.isEmpty then none
    else
      match rest2 with
      | '"' :: _ => some body
      | _ => none
  else none

/-- Leftmost capture of the PRETTY_NAME pattern. -/
def findPrettyName : List Char → Option (List Char)
  | [] => none
  | c :: cs =>
    match prettyNameAt (c :: cs) with
    | some m => some m
    | none => findPrettyName cs

/-! ## The external world

Everything the gathering functions observe about the machine.  `Option`
encodes a fallible query: `none` is the error case of the underlying Go call
(non-nil `err`, and for the list-returning gopsutil calls also the
empty-result case that the source treats identically). -/

inductive GOOS
  | linux
  | windows
  | darwin
  | other
deriving DecidableEq

/-- host.Info() result fields the program reads. -/
structure HostData where
  uptime : Nat
  platform : String
  platformVersion : String
  kernelVersion : String
deriving DecidableEq

/-- One entry of psnet.Connections("tcp"). -/
structure Conn where
  status : String
  ip : String
  port : Nat
deriving DecidableEq

/-- A used/total/percent triple (mem.VirtualMemory, mem.SwapMemory, disk.Usage). -/
structure MemStat where
  used : Nat
  total : Nat
  usedPercent : ℚ
deriving DecidableEq

/-- One entry of host.SensorsTemperatures(). -/
structure TempStat where
  sensorKey : String
  temperature : ℚ
deriving DecidableEq

/-- One entry of net.InterfaceAddrs(). -/
structure IfAddr where
  isIPNet : Bool
  loopback : Bool
  ipv4 : Bool
  ipStr : String
deriving DecidableEq

structure World where
  goos : GOOS
  /-- host.Info(); `none` on error. -/
  host : Option HostData
  /-- host.PlatformInformation() (platform, version); errors ignored by the source. -/
  platformInfo : String × String
  /-- Content of /etc/os-release; `none` when the read fails. -/
  osRelease : Option String
  /-- os.Hostname(); `none` on error (the source then stores Go's zero value ""). -/
  hostname : Option String
  /-- cpu.Info() first entry (ModelName, Mhz); `none` on error or empty slice. -/
  cpuInfo : Option (String × ℚ)
  /-- cpu.Counts(false); 0 on error (error ignored by the source). -/
  coresPhys : Nat
  /-- cpu.Counts(true); 0 on error. -/
  coresLog : Nat
  /-- cpu.Percent(150ms, false) first entry; `none` on error or empty slice. -/
  cpuPercent : Option ℚ
  /-- mem.VirtualMemory(); `none` on error. -/
  vm : Option MemStat
  /-- mem.SwapMemory(); `none` on error. -/
  swap : Option MemStat
  /-- disk.Usage("/"); `none` on error. -/
  diskUsage : Option MemStat
  /-- psnet.Connections("tcp"); `none` on error. -/
  connections : Option (List Conn)
  /-- host.SensorsTemperatures(); `none` on error. -/
  temps : Option (List TempStat)
  /-- host.Virtualization(); `none` on error. -/
  virt : Option String
  /-- runtime.Version(). -/
  goVersion : String
  /-- Local IP string when net.Dial("udp", "8.8.8.8:53") succeeds; `none` on error. -/
  netDialIP : Option String
  /-- net.InterfaceAddrs(); `none` on error. -/
  ifaceAddrs : Option (List IfAddr)
  /-- os.Getenv ("" when the variable is unset, as in Go). -/
  getenv : String → String
  /-- exec.LookPath succeeds on this name. -/
  lookPath : String → Bool
  /-- exec.Command(name, args...).Output(); `none` when the command is missing
  or exits non-zero (cases the source folds into the empty string). -/
  cmdOut : String → List String → Option String

/-! ## Internal helper functions (gather.go lines 54-77) -/

/-- runCommand: run a command, "" on any error, trimmed output otherwise. -/
def runCommand (w : World) (name : String) (args : List String) : String :=
  match w.cmdOut name args with
  | none => ""
  | some out => trimGo out

/-- runShellCommand: route the command text through powershell on Windows and
sh elsewhere; "" on any error, trimmed output otherwise. -/
def runShellCommand (w : World) (command : String) : String :=
  let out :=
    if w.goos = GOOS.windows then
      w.cmdOut "powershell" ["-NoProfile", "-Command", command]
    else
      w.cmdOut "sh" ["-c", command]
  match out with
  | none => ""
  | some s => trimGo s

/-! ## Gathering functions (gather.go lines 79-521) -/

/-- getCPUInfoDetailed (gather.go 82-87). -/
def getCPUInfoDetailed (w : World) : String :=
  match w.cpuInfo with
  | some p => p.1
  | none => "Unknown Processor"

/-- Uptime rendering of gatherHostInfo (gather.go 95-105).  The float
truncations int(Hours()), int(Minutes()) coincide with Nat division at
realistic magnitudes. -/
def uptimeStr (u : Nat) : String :=
  let days := u / 3600 / 24
  let hours := (u / 3600) % 24
  let minutes := (u / 60) % 60
  if days > 0 then toString days ++ " days, " ++ toString hours ++ " hours"
  else if hours > 0 then toString hours ++ " hours, " ++ toString minutes ++ " minutes"
  else toString minutes ++ " minutes"

/-- Kernel-name normalization of gatherHostInfo (gather.go 107-110). -/
def kernelNameOf (platform : String) : String :=
  if platform = "windows" then "Windows NT" else platform

/-- getOSInfo (gather.go 158-191). -/
def getOSInfo (w : World) : String :=
  let bottom : String :=
    match w.host with
    | some h => h.platform ++ " " ++ h.platformVersion
    | none => " "
  match w.goos with
  | GOOS.linux =>
    let fromFile : Option String :=
      match w.osRelease with
      | some content => (findPrettyName content.data).map String.mk
      | none => none
    match fromFile with
    | some name => name
    | none =>
      if w.platformInfo.1 ≠ "" ∧ w.platformInfo.2 ≠ "" then
        w.platformInfo.1 ++ " " ++ w.platformInfo.2
      else bottom
  | GOOS.windows =>
    let productName := runShellCommand w "(Get-CimInstance Win32_OperatingSystem).Caption"
    let buildNumber := runShellCommand w "(Get-CimInstance Win32_OperatingSystem).BuildNumber"
    if productName ≠ "" then
      let productName := trimGo (replaceFirst productName "Microsoft " "")
      if buildNumber ≠ "" then productName ++ " (Build " ++ buildNumber ++ ")"
      else productName
    else bottom
  | GOOS.darwin =>
    let productVersion := runCommand w "sw_vers" ["-productVersion"]
    let buildVersion := runCommand w "sw_vers" ["-buildVersion"]
    if productVersion ≠ "" then "macOS " ++ productVersion ++ " (" ++ buildVersion ++ ")"
    else bottom
  | GOOS.other => bottom

/-- Shell-name/version rendering of getShell (gather.go 212-233). -/
def shellFromPath (w : World) (shellPath : String) : String :=
  let shellName := (splitOnGo shellPath "/").getLastD shellPath
  let shellName := toLowerGo shellName
  let shellName := trimSuffixGo shellName ".exe"
  let version :=
    if shellName = "bash" ∨ shellName = "zsh" ∨ shellName = "fish" then
      let out := runCommand w shellPath ["--version"]
      if out ≠ "" then findVersion ((splitOnGo out "\n").headD "")
      else ""
    else if shellName = "powershell" then
      runShellCommand w "$PSVersionTable.PSVersion.Major"
    else ""
  let titleName := titleGo shellName
  if version ≠ "" then titleName ++ " " ++ version else titleName

/-- getShell (gather.go 193-234). -/
def getShell (w : World) : String :=
  if w.goos ≠ GOOS.windows then
    let sp := w.getenv "SHELL"
    if sp = "" then "Unknown" else shellFromPath w sp
  else
    if w.getenv "PSModulePath" ≠ "" then shellFromPath w "powershell"
    else if w.getenv "ComSpec" ≠ "" then shellFromPath w "cmd"
    else if w.getenv "WT_SESSION" ≠ "" then "Windows Terminal"
    else "Unknown"

/-- getGPUInfo (gather.go 236-252). -/
def getGPUInfo (w : World) : String :=
  match w.goos with
  | GOOS.windows => runShellCommand w "(Get-CimInstance Win32_VideoController).Caption"
  | GOOS.linux =>
    let output := runShellCommand w "lspci -mm | grep -i \x27VGA\\|3D\\|Display\x27 | head -n1 | cut -d \x27\"\x27 -f2,4 | sed \x27s/\" \"/ /\x27"
    if output ≠ "" then output
    else
      trimGo (runShellCommand w "lspci | grep -i \x27VGA\\|3D\\|Display\x27 | head -n1 | cut -d \x27:\x27 -f3 | sed \x27s/ (rev ..)//;s/\\[.*\\]//\x27")
  | GOOS.darwin =>
    trimGo (runShellCommand w "system_profiler SPDisplaysDataType | grep \x27Chipset Model\x27 | cut -d \x27:\x27 -f2")
  | GOOS.other => "Unknown"

/-- getOpenPorts (gather.go 254-283).  Note the filter KEEPS only listening
sockets whose local address is neither "::" nor "0.0.0.0". -/
def getOpenPorts (w : World) : String :=
  match w.connections with
  | none => "Unknown"
  | some conns =>
    let listened := conns.filter
      (fun c => c.status == "LISTEN" && c.ip != "::" && c.ip != "0.0.0.0")
    let portSet := ((listened.map (fun c => toString c.port)).dedup)
    if portSet.length = 0 then "None"
    else
      let ports := sortGo intLe (portSet.map (fun s => (atoi? s).getD 0))
      let portStrings := ports.map (fun p => toString p)
      if portStrings.length > 5 then
        String.intercalate ", " (portStrings.take 5) ++ "..."
      else String.intercalate ", " portStrings

/-- The language/command table of getInstalledLanguages (gather.go 286-290). -/
def langCmds : List (String × String) :=
  [("Python", "python3"), ("Go", "go"), ("Node", "node"), ("Rust", "rustc"),
   ("Java", "java"), ("Ruby", "ruby"), ("PHP", "php")]

/-- getInstalledLanguages (gather.go 285-311).  The concurrent sub-fan-out
appends in arbitrary order and then sorts, so the sorted filter is its
deterministic result. -/
def getInstalledLanguages (w : World) : String :=
  let installed := (langCmds.filter (fun lc => w.lookPath lc.2)).map (fun lc => lc.1)
  let installed := sortGo strLe installed
  if installed.isEmpty then "None" else String.intercalate ", " installed

/-- getIPAddress (gather.go 313-330). -/
def getIPAddress (w : World) : String :=
  match w.netDialIP with
  | some localIP => localIP
  | none =>
    match w.ifaceAddrs with
    | some addrs =>
      match addrs.find? (fun a => a.isIPNet && !a.loopback && a.ipv4) with
      | some a => a.ipStr
      | none => "127.0.0.1"
    | none => "127.0.0.1"

/-- getResolution (gather.go 332-355). -/
def getResolution (w : World) : String :=
  match w.goos with
  | GOOS.windows =>
    let output := runShellCommand w "(Get-CimInstance Win32_VideoController).CurrentHorizontalResolution,(Get-CimInstance Win32_VideoController).CurrentVerticalResolution -join \x27x\x27"
    if output ≠ "" then output else "Unknown"
  | GOOS.linux =>
    let xres :=
      if w.getenv "DISPLAY" ≠ "" then
        runShellCommand w "xrandr --current | grep \x27*\x27 | uniq | awk \x27\x7bprint $1\x7d\x27"
      else ""
    if xres ≠ "" then xres
    else if w.getenv "WAYLAND_DISPLAY" ≠ "" then "Wayland (res?)"
    else "Headless"
  | GOOS.darwin =>
    trimGo (runShellCommand w "system_profiler SPDisplaysDataType | grep Resolution | awk \x27\x7bprint $2\"x\"$4\x7d\x27")
  | GOOS.other => "Unknown"

/-- getTerminal (gather.go 357-369). -/
def getTerminal (w : World) : String :=
  let termProg := w.getenv "TERM_PROGRAM"
  if termProg ≠ "" then
    let termProg := trimSuffixGo termProg ".app"
    let termProg := replaceFirst termProg "iTerm" "iTerm2"
    titleGo termProg
  else
    let term := w.getenv "TERM"
    if term ≠ "" ∧ term ≠ "xterm-256color" ∧ term ≠ "screen" then term
    else "Unknown"

/-- getWindowManager (gather.go 371-407). -/
def getWindowManager (w : World) : String :=
  if w.goos = GOOS.linux then
    let waylandAns : Option String :=
      if w.getenv "WAYLAND_DISPLAY" ≠ "" then
        if w.getenv "XDG_SESSION_TYPE" = "wayland" then
          let currentDesktop := w.getenv "XDG_CURRENT_DESKTOP"
          some (match toLowerGo currentDesktop with
            | "gnome" => "Mutter (Wayland)"
            | "kde" => "KWin (Wayland)"
            | "sway" => "Sway"
            | "wlroots" => "wlroots based"
            | _ => "Wayland")
        else none
      else none
    match waylandAns with
    | some a => a
    | none =>
      let desktopSession := w.getenv "DESKTOP_SESSION"
      if desktopSession ≠ "" then
        let lowerSession := toLowerGo desktopSession
        if containsSub lowerSession "gnome" then "Mutter (X11)"
        else if containsSub lowerSession "kde" || containsSub lowerSession "plasma" then "KWin (X11)"
        else if containsSub lowerSession "xfce" then "Xfwm4"
        else if containsSub lowerSession "cinnamon" then "Muffin"
        else if containsSub lowerSession "mate" then "Marco"
        else if containsSub lowerSession "lxqt" then "Openbox"
        else titleGo desktopSession
      else
        let wm := runShellCommand w "wmctrl -m | grep \x27Name:\x27"
        if wm ≠ "" then trimGo ((splitOnGo wm ":").getD 1 "")
        else "Unknown (X11?)"
  else if w.goos = GOOS.windows then "DWM"
  else if w.goos = GOOS.darwin then "Quartz Compositor"
  else "Unknown"

/-- getSystemLocale (gather.go 409-421). -/
def getSystemLocale (w : World) : String :=
  let locale := w.getenv "LANG"
  let locale := if locale = "" then w.getenv "LC_ALL" else locale
  if locale ≠ "" then (splitOnGo locale ".").headD ""
  else if w.goos = GOOS.windows then runShellCommand w "(Get-Culture).Name"
  else "Unknown"

/-- getDesktopEnvironment (gather.go 423-431). -/
def getDesktopEnvironment (w : World) : String :=
  let de := w.getenv "XDG_CURRENT_DESKTOP"
  let de := if de = "" then w.getenv "DESKTOP_SESSION" else de
  let de := replaceFirst de "plasmawayland" "Plasma (Wayland)"
  let de := replaceFirst de "plasma" "Plasma (X11)"
  titleGo de

/-! ### getPackageCounts (gather.go 433-485) -/

def linuxCheckers : List (String × String) :=
  [("APT", "dpkg-query -f . -W | wc -l"),
   ("Pacman", "pacman -Qq --color never | wc -l"),
   ("DNF", "dnf list installed --quiet | wc -l"),
   ("Flatpak", "flatpak list --app --columns=application | wc -l"),
   ("Snap", "snap list | tail -n +2 | wc -l")]

def darwinCheckers : List (String × String) :=
  [("Brew", "brew list --formula | wc -l"),
   ("Cask", "brew list --cask | wc -l")]

def windowsCheckers : List (String × String) :=
  [("Choco", "(choco list -l | Measure-Object).Count"),
   ("Winget", "(winget list | Measure-Object).Count"),
   ("Scoop", "(scoop list | Measure-Object).Count")]

/-- One checker goroutine body of getPackageCounts (gather.go 459-472):
`some` is a value sent on the results channel, `none` a silent return. -/
def packageEntry (w : World) (nc : String × String) : Option String :=
  let baseCmd := (fieldsGo ((splitOnGo nc.2 "|").headD "")).headD ""
  if ¬ w.lookPath baseCmd ∧ baseCmd ≠ "(" then none
  else
    let countStr := runShellCommand w nc.2
    if countStr ≠ "" then
      let countStr := trimGo countStr
      match atoi? countStr with
      | some count => if count > 0 then some (nc.1 ++ " (" ++ toString count ++ ")") else none
      | none => none
    else none

/-- getPackageCounts (gather.go 433-485).  The channel receives in arbitrary
order and the parts are then sorted, so the sorted filterMap is the
deterministic result. -/
def getPackageCounts (w : World) : String :=
  match w.goos with
  | GOOS.other => "None detected"
  | _ =>
    let checkers :=
      match w.goos with
      | GOOS.linux => linuxCheckers
      | GOOS.darwin => darwinCheckers
      | GOOS.windows => windowsCheckers
      | GOOS.other => []
    let parts := checkers.filterMap (packageEntry w)
    let parts := sortGo strLe parts
    if parts.isEmpty then "None detected" else String.intercalate ", " parts

/-- The "%.1fGB / %.1fGB (%.0f%%)" rendering of RAM and disk stats. -/
def memStr0 (s : MemStat) : String :=
  fmtFixed 1 ((s.used : ℚ) / 2 ^ 30) ++ "GB / " ++ fmtFixed 1 ((s.total : ℚ) / 2 ^ 30) ++
    "GB (" ++ fmtFixed 0 s.usedPercent ++ "%)"

/-- The "%.1fGB / %.1fGB (%.1f%%)" rendering of swap stats. -/
def memStr1 (s : MemStat) : String :=
  fmtFixed 1 ((s.used : ℚ) / 2 ^ 30) ++ "GB / " ++ fmtFixed 1 ((s.total : ℚ) / 2 ^ 30) ++
    "GB (" ++ fmtFixed 1 s.usedPercent ++ "%)"

/-- getDisk (gather.go 487-495). -/
def getDisk (w : World) : String :=
  match w.diskUsage with
  | none => "N/A"
  | some d => memStr0 d

/-- getGoVersion (gather.go 497-499). -/
def getGoVersion (w : World) : String := w.goVersion

/-- getVirtualization (gather.go 501-507). -/
def getVirtualization (w : World) : String :=
  match w.virt with
  | none => ""
  | some v => if v = "" then "" else v

/-- getTemperatures (gather.go 509-521). -/
def getTemperatures (w : World) : String :=
  match w.temps with
  | none => ""
  | some temps =>
    if temps.isEmpty then ""
    else
      match temps.find? (fun t =>
        let k := toLowerGo t.sensorKey
        containsSub k "core" || containsSub k "cpu" || containsSub k "package") with
      | some t => fmtFixed 1 t.temperature ++ " °C"
      | none =>
        match temps.head? with
        | some t => fmtFixed 1 t.temperature ++ " °C"
        | none => ""

/-- CPU speed rendering of gatherCPUInfo (gather.go 119-124). -/
def cpuSpeedStr (mhz : ℚ) : String :=
  if mhz > 1000 then fmtFixed 2 (mhz / 1000) ++ " GHz" else fmtFixed 0 mhz ++ " MHz"

/-- CPU usage rendering of gatherCPUInfo (gather.go 131-136). -/
def cpuUsageStr (w : World) : String :=
  match w.cpuPercent with
  | some pct => fmtFixed 1 pct ++ "%"
  | none => "N/A"

/-! ## The Snapshot (SystemInfo, gather.go 24-50) and the orchestrator -/

@[ext]
structure SystemInfo where
  OS : String := ""
  Kernel : String := ""
  Uptime : String := ""
  Shell : String := ""
  CPU : String := ""
  CoresThreads : String := ""
  CPUSpeed : String := ""
  CPUUsage : String := ""
  GPU : String := ""
  RAM : String := ""
  Disk : String := ""
  Swap : String := ""
  Hostname : String := ""
  IPAddress : String := ""
  OpenPorts : String := ""
  Locale : String := ""
  Resolution : String := ""
  WindowManager : String := ""
  DE : String := ""
  Terminal : String := ""
  Packages : String := ""
  Languages : String := ""
  Go : String := ""
  Virtualization : String := ""
  Temperature : String := ""
deriving DecidableEq

/-- Names of the Snapshot fields, used to state the write-once discipline. -/
inductive Field
  | OS | Kernel | Uptime | Shell | CPU | CoresThreads | CPUSpeed | CPUUsage
  | GPU | RAM | Disk | Swap | Hostname | IPAddress | OpenPorts | Locale
  | Resolution | WindowManager | DE | Terminal | Packages | Languages
  | Go | Virtualization | Temperature
deriving DecidableEq

def fieldGet (s : SystemInfo) : Field → String
  | Field.OS => s.OS
  | Field.Kernel => s.Kernel
  | Field.Uptime => s.Uptime
  | Field.Shell => s.Shell
  | Field.CPU => s.CPU
  | Field.CoresThreads => s.CoresThreads
  | Field.CPUSpeed => s.CPUSpeed
  | Field.CPUUsage => s.CPUUsage
  | Field.GPU => s.GPU
  | Field.RAM => s.RAM
  | Field.Disk => s.Disk
  | Field.Swap => s.Swap
  | Field.Hostname => s.Hostname
  | Field.IPAddress => s.IPAddress
  | Field.OpenPorts => s.OpenPorts
  | Field.Locale => s.Locale
  | Field.Resolution => s.Resolution
  | Field.WindowManager => s.WindowManager
  | Field.DE => s.DE
  | Field.Terminal => s.Terminal
  | Field.Packages => s.Packages
  | Field.Languages => s.Languages
  | Field.Go => s.Go
  | Field.Virtualization => s.Virtualization
  | Field.Temperature => s.Temperature

def fieldSet (s : SystemInfo) : Field → String → SystemInfo
  | Field.OS, v => { s with OS := v }
  | Field.Kernel, v => { s with Kernel := v }
  | Field.Uptime, v => { s with Uptime := v }
  | Field.Shell, v => { s with Shell := v }
  | Field.CPU, v => { s with CPU := v }
  | Field.CoresThreads, v => { s with CoresThreads := v }
  | Field.CPUSpeed, v => { s with CPUSpeed := v }
  | Field.CPUUsage, v => { s with CPUUsage := v }
  | Field.GPU, v => { s with GPU := v }
  | Field.RAM, v => { s with RAM := v }
  | Field.Disk, v => { s with Disk := v }
  | Field.Swap, v => { s with Swap := v }
  | Field.Hostname, v => { s with Hostname := v }
  | Field.IPAddress, v => { s with IPAddress := v }
  | Field.OpenPorts, v => { s with OpenPorts := v }
  | Field.Locale, v => { s with Locale := v }
  | Field.Resolution, v => { s with Resolution := v }
  | Field.WindowManager, v => { s with WindowManager := v }
  | Field.DE, v => { s with DE := v }
  | Field.Terminal, v => { s with Terminal := v }
  | Field.Packages, v => { s with Packages := v }
  | Field.Languages, v => { s with Languages := v }
  | Field.Go, v => { s with Go := v }
  | Field.Virtualization, v => { s with Virtualization := v }
  | Field.Temperature, v => { s with Temperature := v }

/-- The zero-valued Snapshot `&SystemInfo{}` the orchestrator starts from. -/
def emptyInfo : SystemInfo := {}

/-- Writes performed by the gatherHostInfo goroutine (gather.go 89-113).
On host.Info() error the goroutine returns before writing anything. -/
def hostWrites (w : World) : List (Field × String) :=
  match w.host with
  | none => []
  | some h =>
    [(Field.Uptime, uptimeStr h.uptime),
     (Field.OS, getOSInfo w),
     (Field.Kernel, titleGo (kernelNameOf h.platform) ++ " " ++ h.kernelVersion),
     (Field.Hostname, w.hostname.getD "")]

/-- Writes performed by the gatherCPUInfo goroutine (gather.go 115-138). -/
def cpuWrites (w : World) (isFast : Bool) : List (Field × String) :=
  [(Field.CPU, getCPUInfoDetailed w)] ++
  (match w.cpuInfo with
   | some p => [(Field.CPUSpeed, cpuSpeedStr p.2)]
   | none => []) ++
  [(Field.CoresThreads, toString w.coresPhys ++ "/" ++ toString w.coresLog)] ++
  (if isFast then [] else [(Field.CPUUsage, cpuUsageStr w)])

/-- Writes performed by the gatherMemoryInfo goroutine (gather.go 140-156). -/
def memWrites (w : World) : List (Field × String) :=
  (match w.vm with
   | some v => [(Field.RAM, memStr0 v)]
   | none => []) ++
  [(Field.Swap,
    match w.swap with
    | some s => if s.total > 0 then memStr1 s else "None"
    | none => "None")]

/-- The eleven always-run standalone tasks (gather.go 537-555), one write each. -/
def fastTaskWrites (w : World) : List (List (Field × String)) :=
  [[(Field.Shell, getShell w)],
   [(Field.GPU, getGPUInfo w)],
   [(Field.Disk, getDisk w)],
   [(Field.IPAddress, getIPAddress w)],
   [(Field.Locale, getSystemLocale w)],
   [(Field.Resolution, getResolution w)],
   [(Field.WindowManager, getWindowManager w)],
   [(Field.DE, getDesktopEnvironment w)],
   [(Field.Terminal, getTerminal w)],
   [(Field.Go, getGoVersion w)],
   [(Field.Virtualization, getVirtualization w)]]

/-- The four comprehensive-only tasks (gather.go 558-580), one write each. -/
def slowTaskWrites (w : World) : List (List (Field × String)) :=
  [[(Field.OpenPorts, getOpenPorts w)],
   [(Field.Packages, getPackageCounts w)],
   [(Field.Languages, getInstalledLanguages w)],
   [(Field.Temperature, getTemperatures w)]]

/-- All concurrent tasks dispatched by GetSystemInfo, each as its list of
(field, value) writes. -/
def taskWrites (w : World) (isFast : Bool) : List (List (Field × String)) :=
  [hostWrites w, cpuWrites w isFast, memWrites w] ++ fastTaskWrites w ++
  (if isFast then [] else slowTaskWrites w)

/-- The flat multiset of writes of one collection pass. -/
def writesOf (w : World) (isFast : Bool) : List (Field × String) :=
  (taskWrites w isFast).flatten

/-- Replay a sequence of field writes onto a snapshot. -/
def applyWrites (s : SystemInfo) (l : List (Field × String)) : SystemInfo :=
  l.foldl (fun s fv => fieldSet s fv.1 fv.2) s

/-- GetSystemInfo (gather.go 526-584): the fully joined snapshot, stated
field-by-field. -/
def GetSystemInfo (w : World) (isFast : Bool) : SystemInfo where
  OS := match w.host with | none => "" | some _ => getOSInfo w
  Kernel := match w.host with
    | none => ""
    | some h => titleGo (kernelNameOf h.platform) ++ " " ++ h.kernelVersion
  Uptime := match w.host with | none => "" | some h => uptimeStr h.uptime
  Hostname := match w.host with | none => "" | some _ => w.hostname.getD ""
  CPU := getCPUInfoDetailed w
  CPUSpeed := match w.cpuInfo with | some p => cpuSpeedStr p.2 | none => ""
  CoresThreads := toString w.coresPhys ++ "/" ++ toString w.coresLog
  CPUUsage := if isFast then "" else cpuUsageStr w
  RAM := match w.vm with | some v => memStr0 v | none => ""
  Swap := match w.swap with
    | some s => if s.total > 0 then memStr1 s else "None"
    | none => "None"
  Shell := getShell w
  GPU := getGPUInfo w
  Disk := getDisk w
  IPAddress := getIPAddress w
  Locale := getSystemLocale w
  Resolution := getResolution w
  WindowManager := getWindowManager w
  DE := getDesktopEnvironment w
  Terminal := getTerminal w
  Go := getGoVersion w
  Virtualization := getVirtualization w
  OpenPorts := if isFast then "" else getOpenPorts w
  Packages := if isFast then "" else getPackageCounts w
  Languages := if isFast then "" else getInstalledLanguages w
  Temperature := if isFast then "" else getTemperatures w

/-! ## CLI boundary (main.go) with Go flag-package semantics

main.go registers boolean flags "fast" and "f" on the default ExitOnError
flag set and calls flag.Parse.  The parsing loop below follows the documented
semantics of the Go flag package: one or two leading minuses are equivalent;
a bare "-" or the first non-flag argument stops parsing; "--" stops parsing;
an undefined flag is an error (exit 2) except -h, -help and --help, which
print usage and exit 0; boolean flags accept -name=value with strconv.ParseBool
syntax. -/

inductive ParseResult
  | ok (fast : Bool)
  | helpExit
  | errExit
deriving DecidableEq

/-- Split a flag body at the first '=' occurring after the first character
(the flag package scans for '=' starting at index 1). -/
def scanEq : List Char → List Char → List Char × Option (List Char)
  | pre, [] => (pre, none)
  | pre, c :: t => if c = '=' then (pre, some t) else scanEq (pre ++ [c]) t

def splitFlagName : List Char → List Char × Option (List Char)
  | [] => ([], none)
  | c0 :: rest => scanEq [c0] rest

/-- strconv.ParseBool. -/
def parseBoolGo (s : List Char) : Option Bool :=
  if s = "1".data ∨ s = "t".data ∨ s = "T".data ∨ s = "true".data ∨
     s = "TRUE".data ∨ s = "True".data then some true
  else if s = "0".data ∨ s = "f".data ∨ s = "F".data ∨ s = "false".data ∨
     s = "FALSE".data ∨ s = "False".data then some false
  else none

/-- flag.Parse over the two registered boolean flags, carrying the current
value of the shared fastFlag variable. -/
def parseArgsCh (fastVal : Bool) : List (List Char) → ParseResult
  | [] => ParseResult.ok fastVal
  | s :: rest =>
    match s with
    | [] => ParseResult.ok fastVal
    | [_] => ParseResult.ok fastVal
    | c0 :: c1 :: cs =>
      if c0 ≠ '-' then ParseResult.ok fastVal
      else if c1 = '-' ∧ cs = [] then ParseResult.ok fastVal
      else
        let nv := if c1 = '-' then splitFlagName cs else splitFlagName (c1 :: cs)
        match nv.1 with
        | [] => ParseResult.errExit
        | n0 :: _ =>
          if n0 = '-' ∨ n0 = '=' then ParseResult.errExit
          else if nv.1 = "fast".data ∨ nv.1 = "f".data then
            match nv.2 with
            | none => parseArgsCh true rest
            | some v =>
              match parseBoolGo v with
              | some b => parseArgsCh b rest
              | none => ParseResult.errExit
          else if nv.1 = "help".data ∨ nv.1 = "h".data then ParseResult.helpExit
          else ParseResult.errExit

/-- Observable outcome of main (main.go 598-631): either usage is printed and
the process exits without collecting (code 0 for help, 2 for a bad flag), or
collection runs in the parsed mode. -/
inductive MainOutcome
  | helpShown
  | usageError
  | ran (fast : Bool)
deriving DecidableEq

def mainBehavior (args : List String) : MainOutcome :=
  match parseArgsCh false (args.map String.data) with
  | ParseResult.ok b => MainOutcome.ran b
  | ParseResult.helpExit => MainOutcome.helpShown
  | ParseResult.errExit => MainOutcome.usageError

/-! ## Concrete worlds used as witnesses and counterexamples -/

/-- A Linux world in which every external query fails and every environment
variable is unset. -/
def wBase : World where
  goos := GOOS.linux
  host := none
  platformInfo := ("", "")
  osRelease := none
  hostname := none
  cpuInfo := none
  coresPhys := 0
  coresLog := 0
  cpuPercent := none
  vm := none
  swap := none
  diskUsage := none
  connections := none
  temps := none
  virt := none
  goVersion := "go1.25.0"
  netDialIP := none
  ifaceAddrs := none
  getenv := fun _ => ""
  lookPath := fun _ => false
  cmdOut := fun _ _ => none

/-! ## The write-once discipline of the orchestrator -/

theorem applyWrites_nil (s : SystemInfo) : applyWrites s [] = s := rfl

theorem applyWrites_cons (s : SystemInfo) (x : Field × String) (l : List (Field × String)) :
    applyWrites s (x :: l) = applyWrites (fieldSet s x.1 x.2) l := rfl

/-- Writes to distinct fields commute. -/
theorem fieldSet_comm (s : SystemInfo) (v u : String) :
    ∀ f g : Field, f ≠ g →
      fieldSet (fieldSet s f v) g u = fieldSet (fieldSet s g u) f v := by
  intro f g h
  cases f <;> cases g <;> first | exact absurd rfl h | rfl

/-- Replaying a write sequence whose fields are pairwise distinct is
order-independent. -/
theorem applyWrites_perm : ∀ {l l' : List (Field × String)}, l.Perm l' →
    (l.map Prod.fst).Nodup → ∀ s, applyWrites s l = applyWrites s l' := by
  intro l l' h
  induction h with
  | nil => intro _ s; rfl
  | cons x _ ih =>
    intro hnd s
    rw [List.map_cons] at hnd
    rw [applyWrites_cons, applyWrites_cons]
    exact ih (List.nodup_cons.mp hnd).2 _
  | swap x y l =>
    intro hnd s
    rw [List.map_cons, List.map_cons] at hnd
    have hne : y.1 ≠ x.1 := by
      intro hxy
      exact (List.nodup_cons.mp hnd).1 (hxy ▸ List.mem_cons_self _ _)
    rw [applyWrites_cons, applyWrites_cons, applyWrites_cons, applyWrites_cons,
      fieldSet_comm s y.2 x.2 y.1 x.1 hne]
  | trans h1 _ ih1 ih2 =>
    intro hnd s
    rw [ih1 hnd s, ih2 (((h1.map Prod.fst).nodup_iff).mp hnd) s]

/-- In every world and in both modes, the fields written during one pass are
pairwise distinct: every Snapshot field is written at most once, by exactly
one task. -/
theorem writesOf_keys_nodup (w : World) (m : Bool) :
    ((writesOf w m).map Prod.fst).Nodup := by
  rcases w with ⟨goos, host, pi, osr, hn, ci, cp, cl, cpc, vm, sw, du, conns, temps, virt,
    gv, nd, ia, ge, lp, co⟩
  cases host <;> cases ci <;> cases vm <;> cases m <;> exact of_decide_eq_true rfl

/-- Replaying the pass's writes in program order reconstructs the snapshot. -/
theorem applyWrites_writesOf (w : World) (m : Bool) :
    applyWrites emptyInfo (writesOf w m) = GetSystemInfo w m := by
  rcases w with ⟨goos, host, pi, osr, hn, ci, cp, cl, cpc, vm, sw, du, conns, temps, virt,
    gv, nd, ia, ge, lp, co⟩
  cases host <;> cases ci <;> cases vm <;> cases m <;> rfl

/-! ## Worlds exercising the open-ports probe -/

/-- Listening sockets bound to wildcard addresses on ports 22, 80, 8080,
3000, 5432, 9000 — the spec's literal example. -/
def wildConns : List Conn :=
  [⟨"LISTEN", "0.0.0.0", 22⟩, ⟨"LISTEN", "0.0.0.0", 80⟩, ⟨"LISTEN", "::", 8080⟩,
   ⟨"LISTEN", "0.0.0.0", 3000⟩, ⟨"LISTEN", "::", 5432⟩, ⟨"LISTEN", "0.0.0.0", 9000⟩]

def wWild : World := { wBase with connections := some wildConns }

/-- The same six ports bound to concrete (non-wildcard) addresses, with port
22 listed twice to exercise deduplication. -/
def boundConns : List Conn :=
  [⟨"LISTEN", "192.168.1.5", 22⟩, ⟨"LISTEN", "10.0.0.7", 22⟩,
   ⟨"LISTEN", "192.168.1.5", 80⟩, ⟨"LISTEN", "192.168.1.5", 8080⟩,
   ⟨"LISTEN", "192.168.1.5", 3000⟩, ⟨"LISTEN", "192.168.1.5", 5432⟩,
   ⟨"LISTEN", "192.168.1.5", 9000⟩]

def wBound : World := { wBase with connections := some boundConns }

/-- C1 counterexample: on listening sockets bound to wildcard addresses on
ports 22, 80, 8080, 3000, 5432, 9000 the probe does NOT return
"22, 80, 3000, 5432, 8080..." — it returns "None", because the source
filter excludes (not selects) wildcard-bound sockets. -/
theorem c1_ports_wildcard_counterexample :
    getOpenPorts wWild = "None" ∧
    getOpenPorts wWild ≠ "22, 80, 3000, 5432, 8080..." :=
  ⟨rfl, by decide⟩

/-- C1 (amended): the open-ports probe filters listening TCP sockets to those
NOT bound on a wildcard/any address ("::" or "0.0.0.0"), deduplicates by
port, sorts ascending and truncates to 5 with a "..." marker; on
non-wildcard-bound listening sockets on ports 22, 80, 8080, 3000, 5432, 9000
it returns exactly "22, 80, 3000, 5432, 8080...", while any collection of
wildcard-bound sockets yields "None". -/
theorem c1_ports_filter_amended :
    getOpenPorts wBound = "22, 80, 3000, 5432, 8080..." ∧
    ∀ conns : List Conn, (∀ c ∈ conns, c.ip = "0.0.0.0" ∨ c.ip = "::") →
      getOpenPorts { wBase with connections := some conns } = "None" := by
  refine ⟨rfl, ?_⟩
  intro conns h
  have hfil : conns.filter
      (fun c => c.status == "LISTEN" && c.ip != "::" && c.ip != "0.0.0.0") = [] := by
    rw [List.filter_eq_nil_iff]
    intro c hc
    rcases h c hc with h1 | h1 <;> simp [h1]
  simp [getOpenPorts, hfil]

theorem c1_ports_filter_amended_witness :
    getOpenPorts wBound = "22, 80, 3000, 5432, 8080..." ∧
    getOpenPorts { wBase with connections := some [⟨"LISTEN", "0.0.0.0", 22⟩] } = "None" :=
  ⟨c1_ports_filter_amended.1,
   c1_ports_filter_amended.2 [⟨"LISTEN", "0.0.0.0", 22⟩] (by decide)⟩

/-- C3: in fast mode the slow-tier fields (CPU usage, open ports, package
counts, installed languages, CPU temperature) stay at their absent sentinel
"" (their probes are not dispatched); in comprehensive mode they are
additionally dispatched; the fast tier runs identically in both modes. -/
theorem c3_mode_gating (w : World) :
    (GetSystemInfo w true).CPUUsage = "" ∧
    (GetSystemInfo w true).OpenPorts = "" ∧
    (GetSystemInfo w true).Packages = "" ∧
    (GetSystemInfo w true).Languages = "" ∧
    (GetSystemInfo w true).Temperature = "" ∧
    (GetSystemInfo w false).CPUUsage = cpuUsageStr w ∧
    (GetSystemInfo w false).OpenPorts = getOpenPorts w ∧
    (GetSystemInfo w false).Packages = getPackageCounts w ∧
    (GetSystemInfo w false).Languages = getInstalledLanguages w ∧
    (GetSystemInfo w false).Temperature = getTemperatures w ∧
    (GetSystemInfo w true).OS = (GetSystemInfo w false).OS ∧
    (GetSystemInfo w true).Kernel = (GetSystemInfo w false).Kernel ∧
    (GetSystemInfo w true).Uptime = (GetSystemInfo w false).Uptime ∧
    (GetSystemInfo w true).Hostname = (GetSystemInfo w false).Hostname ∧
    (GetSystemInfo w true).CPU = (GetSystemInfo w false).CPU ∧
    (GetSystemInfo w true).CPUSpeed = (GetSystemInfo w false).CPUSpeed ∧
    (GetSystemInfo w true).CoresThreads = (GetSystemInfo w false).CoresThreads ∧
    (GetSystemInfo w true).RAM = (GetSystemInfo w false).RAM ∧
    (GetSystemInfo w true).Swap = (GetSystemInfo w false).Swap ∧
    (GetSystemInfo w true).Shell = (GetSystemInfo w false).Shell ∧
    (GetSystemInfo w true).GPU = (GetSystemInfo w false).GPU ∧
    (GetSystemInfo w true).Disk = (GetSystemInfo w false).Disk ∧
    (GetSystemInfo w true).IPAddress = (GetSystemInfo w false).IPAddress ∧
    (GetSystemInfo w true).Locale = (GetSystemInfo w false).Locale ∧
    (GetSystemInfo w true).Resolution = (GetSystemInfo w false).Resolution ∧
    (GetSystemInfo w true).WindowManager = (GetSystemInfo w false).WindowManager ∧
    (GetSystemInfo w true).DE = (GetSystemInfo w false).DE ∧
    (GetSystemInfo w true).Terminal = (GetSystemInfo w false).Terminal ∧
    (GetSystemInfo w true).Go = (GetSystemInfo w false).Go ∧
    (GetSystemInfo w true).Virtualization = (GetSystemInfo w false).Virtualization :=
  ⟨rfl, rfl, rfl, rfl, rfl, rfl, rfl, rfl, rfl, rfl, rfl, rfl, rfl, rfl, rfl,
   rfl, rfl, rfl, rfl, rfl, rfl, rfl, rfl, rfl, rfl, rfl, rfl, rfl, rfl, rfl⟩

/-- C4: during one collection pass every Snapshot field is written at most
once (the written field names are pairwise distinct across all concurrent
tasks), replaying the writes in ANY interleaving order reconstructs exactly
the returned snapshot (so the join fully determines it and nothing mutates
it afterwards), and each standalone named task writes exactly one field. -/
theorem c4_write_once (w : World) (m : Bool) :
    ((writesOf w m).map Prod.fst).Nodup ∧
    (∀ l : List (Field × String), l.Perm (writesOf w m) →
        applyWrites emptyInfo l = GetSystemInfo w m) ∧
    (∀ t ∈ fastTaskWrites w, t.length = 1) ∧
    (∀ t ∈ slowTaskWrites w, t.length = 1) := by
  refine ⟨writesOf_keys_nodup w m, ?_, ?_, ?_⟩
  · intro l hl
    have hnd : (l.map Prod.fst).Nodup :=
      ((hl.map Prod.fst).nodup_iff).mpr (writesOf_keys_nodup w m)
    rw [applyWrites_perm hl hnd, applyWrites_writesOf]
  · intro t ht
    simp only [fastTaskWrites, List.mem_cons, List.not_mem_nil, or_false] at ht
    rcases ht with rfl | rfl | rfl | rfl | rfl | rfl | rfl | rfl | rfl | rfl | rfl <;> rfl
  · intro t ht
    simp only [slowTaskWrites, List.mem_cons, List.not_mem_nil, or_false] at ht
    rcases ht with rfl | rfl | rfl | rfl <;> rfl

theorem c4_write_once_witness :
    (applyWrites emptyInfo (writesOf wBase false) = GetSystemInfo wBase false) ∧
    ([(Field.Shell, getShell wBase)].length = 1) :=
  ⟨(c4_write_once wBase false).2.1 _ (List.Perm.refl _),
   (c4_write_once wBase false).2.2.1 _ (List.mem_cons_self _ _)⟩

/-- C9: the IP-address probe never resolves to the absent sentinel: under the
network library's invariant that rendered addresses are non-empty strings,
its result is non-empty in every world; when the UDP dial fails it falls back
to the first non-loopback IPv4 interface address, and when the dial fails and
no suitable interface address exists it returns the literal "127.0.0.1". -/
theorem c9_ip_fallback (w : World)
    (hdial : ∀ s, w.netDialIP = some s → s ≠ "")
    (hif : ∀ addrs, w.ifaceAddrs = some addrs → ∀ a ∈ addrs, a.ipStr ≠ "") :
    getIPAddress w ≠ "" ∧
    (w.netDialIP = none → w.ifaceAddrs = none → getIPAddress w = "127.0.0.1") ∧
    (∀ addrs, w.netDialIP = none → w.ifaceAddrs = some addrs →
      (∀ a ∈ addrs, (a.isIPNet && !a.loopback && a.ipv4) = false) →
      getIPAddress w = "127.0.0.1") := by
  refine ⟨?_, ?_, ?_⟩
  · rcases h1 : w.netDialIP with _ | s
    · rcases h2 : w.ifaceAddrs with _ | addrs
      · simp [getIPAddress, h1, h2]
      · rcases h3 : addrs.find? (fun a => a.isIPNet && !a.loopback && a.ipv4) with _ | a
        · simp [getIPAddress, h1, h2, h3]
        · have ha : a ∈ addrs := List.mem_of_find?_eq_some h3
          simp [getIPAddress, h1, h2, h3, hif addrs h2 a ha]
    · simp [getIPAddress, h1, hdial s h1]
  · intro h1 h2
    simp [getIPAddress, h1, h2]
  · intro addrs h1 h2 h3
    have hfind : addrs.find? (fun a => a.isIPNet && !a.loopback && a.ipv4) = none :=
      List.find?_eq_none.mpr (fun a ha => by simp [h3 a ha])
    simp [getIPAddress, h1, h2, hfind]

theorem c9_ip_fallback_witness :
    getIPAddress wBase ≠ "" ∧
    (wBase.netDialIP = none → wBase.ifaceAddrs = none → getIPAddress wBase = "127.0.0.1") ∧
    (∀ addrs, wBase.netDialIP = none → wBase.ifaceAddrs = some addrs →
      (∀ a ∈ addrs, (a.isIPNet && !a.loopback && a.ipv4) = false) →
      getIPAddress wBase = "127.0.0.1") :=
  c9_ip_fallback wBase (fun _ h => nomatch h) (fun _ h => nomatch h)

/-- The formatted swap string always contains the "GB / ", "GB (" and "%)"
markers, so it can never collide with the sentinel "None". -/
theorem memStr1_ne_none (s : MemStat) : memStr1 s ≠ "None" := by
  intro h
  have hlen := congrArg String.length h
  simp only [memStr1, String.length_append] at hlen
  have e1 : ("GB / " : String).length = 5 := rfl
  have e2 : ("GB (" : String).length = 4 := rfl
  have e3 : ("%)" : String).length = 2 := rfl
  have e4 : ("None" : String).length = 4 := rfl
  rw [e1, e2, e3, e4] at hlen
  omega

/-- C10: the memory probe sets Swap to "None" exactly when the swap query
fails or total swap is zero; with positive total swap it renders the
used/total gigabytes with a usage percentage (never "None"); a failed
virtual-memory query leaves RAM at the absent sentinel "". -/
theorem c10_swap_sentinel (w : World) (m : Bool) :
    (w.swap = none → (GetSystemInfo w m).Swap = "None") ∧
    (∀ s, w.swap = some s → s.total = 0 → (GetSystemInfo w m).Swap = "None") ∧
    (∀ s, w.swap = some s → 0 < s.total →
      (GetSystemInfo w m).Swap = memStr1 s ∧ (GetSystemInfo w m).Swap ≠ "None") ∧
    (w.vm = none → (GetSystemInfo w m).RAM = "") := by
  refine ⟨?_, ?_, ?_, ?_⟩
  · intro h; simp [GetSystemInfo, h]
  · intro s h ht; simp [GetSystemInfo, h, ht]
  · intro s h ht
    have : (GetSystemInfo w m).Swap = memStr1 s := by simp [GetSystemInfo, h, ht]
    exact ⟨this, this ▸ memStr1_ne_none s⟩
  · intro h; simp [GetSystemInfo, h]

def wSwap : World := { wBase with swap := some ⟨0, 1073741824, 0⟩ }

theorem c10_swap_sentinel_witness :
    ((GetSystemInfo wBase false).Swap = "None") ∧
    ((GetSystemInfo wSwap false).Swap = memStr1 ⟨0, 1073741824, 0⟩ ∧
     (GetSystemInfo wSwap false).Swap ≠ "None") ∧
    ((GetSystemInfo wBase false).RAM = "") :=
  ⟨(c10_swap_sentinel wBase false).1 rfl,
   (c10_swap_sentinel wSwap false).2.2.1 ⟨0, 1073741824, 0⟩ rfl (by decide),
   (c10_swap_sentinel wBase false).2.2.2 rfl⟩

/-! ## Worlds exercising the package-count probe -/

/-- Only dpkg-query resolves, yet the shell would answer both the APT and the
Pacman count commands — Pacman must be skipped before running anything. -/
def wPkg : World :=
  { wBase with
    lookPath := fun s => s == "dpkg-query"
    cmdOut := fun n a =>
      if n = "sh" ∧ a = ["-c", "dpkg-query -f . -W | wc -l"] then some "120"
      else if n = "sh" ∧ a = ["-c", "pacman -Qq --color never | wc -l"] then some "77"
      else none }

/-- Two resolvable managers reporting counts 5 and 3. -/
def wPkgTwo : World :=
  { wBase with
    lookPath := fun s => s == "dpkg-query" || s == "pacman"
    cmdOut := fun n a =>
      if n = "sh" ∧ a = ["-c", "dpkg-query -f . -W | wc -l"] then some "5"
      else if n = "sh" ∧ a = ["-c", "pacman -Qq --color never | wc -l"] then some "3"
      else none }

/-- The only resolvable manager reports a non-positive count. -/
def wPkgZero : World :=
  { wBase with
    lookPath := fun s => s == "dpkg-query"
    cmdOut := fun n a =>
      if n = "sh" ∧ a = ["-c", "dpkg-query -f . -W | wc -l"] then some "0" else none }

/-- The only resolvable manager reports an unparseable count. -/
def wPkgBad : World :=
  { wBase with
    lookPath := fun s => s == "dpkg-query"
    cmdOut := fun n a =>
      if n = "sh" ∧ a = ["-c", "dpkg-query -f . -W | wc -l"] then some "abc" else none }

/-- C5: the package-count probe runs the current OS family's fixed checker
set, skips managers whose executable does not resolve (even when their count
command would answer), discards unparseable or non-positive counts, and joins
the survivors as "Manager (count)" in alphabetical order.  With one
resolvable manager reporting 120 and the others unresolvable the result is
exactly "APT (120)", the unresolvable managers absent. -/
theorem c5_package_counts :
    getPackageCounts wPkg = "APT (120)" ∧
    getPackageCounts wPkgTwo = "APT (5), Pacman (3)" ∧
    getPackageCounts wPkgZero = "None detected" ∧
    getPackageCounts wPkgBad = "None detected" ∧
    getPackageCounts { wBase with goos := GOOS.other } = "None detected" :=
  ⟨rfl, rfl, rfl, rfl, rfl⟩

/-! ## Worlds exercising the installed-languages probe -/

def wLang : World :=
  { wBase with lookPath := fun s => s == "go" || s == "rustc" || s == "python3" }

def wAllLang : World := { wBase with lookPath := fun _ => true }

/-- The probe's output depends only on resolvability of its seven fixed
candidate commands. -/
theorem getInstalledLanguages_congr (w w' : World)
    (h : ∀ c ∈ langCmds.map Prod.snd, w'.lookPath c = w.lookPath c) :
    getInstalledLanguages w' = getInstalledLanguages w := by
  have h1 := h "python3" (by decide)
  have h2 := h "go" (by decide)
  have h3 := h "node" (by decide)
  have h4 := h "rustc" (by decide)
  have h5 := h "java" (by decide)
  have h6 := h "ruby" (by decide)
  have h7 := h "php" (by decide)
  simp only [getInstalledLanguages, langCmds, List.filter_cons, List.filter_nil,
    h1, h2, h3, h4, h5, h6, h7]

/-- C7: the installed-languages probe consults executable resolvability for
exactly the fixed candidate list Python, Go, Node, Rust, Java, Ruby, PHP
(its output is invariant under any change of the world outside those seven
commands), reports the found subset sorted and comma-joined, and returns the
sentinel "None" exactly when no candidate resolves. -/
theorem c7_languages (w w' : World) :
    ((∀ c ∈ langCmds.map Prod.snd, w'.lookPath c = w.lookPath c) →
       getInstalledLanguages w' = getInstalledLanguages w) ∧
    ((∀ c ∈ langCmds.map Prod.snd, w.lookPath c = false) →
       getInstalledLanguages w = "None") ∧
    getInstalledLanguages wLang = "Go, Python, Rust" ∧
    getInstalledLanguages wAllLang = "Go, Java, Node, PHP, Python, Ruby, Rust" := by
  refine ⟨getInstalledLanguages_congr w w', ?_, rfl, rfl⟩
  intro h
  have := getInstalledLanguages_congr wBase w (by intro c hc; rw [h c hc]; rfl)
  rw [this]
  rfl

theorem c7_languages_witness :
    (getInstalledLanguages wBase = getInstalledLanguages wBase) ∧
    (getInstalledLanguages wBase = "None") ∧
    getInstalledLanguages wLang = "Go, Python, Rust" ∧
    getInstalledLanguages wAllLang = "Go, Java, Node, PHP, Python, Ruby, Rust" :=
  ⟨(c7_languages wBase wBase).1 (fun _ _ => rfl),
   (c7_languages wBase wBase).2.1 (fun _ _ => rfl),
   (c7_languages wBase wBase).2.2.1,
   (c7_languages wBase wBase).2.2.2⟩

/-! ## CLI boundary claims -/

theorem scanEq_no_eq : ∀ (t pre : List Char), '=' ∉ t → scanEq pre t = (pre ++ t, none) := by
  intro t
  induction t with
  | nil => intro pre _; simp [scanEq]
  | cons c cs ih =>
    intro pre h
    have hc : c ≠ '=' := by
      intro hh
      exact h (hh ▸ List.mem_cons_self _ _)
    have hcs : '=' ∉ cs := fun hh => h (List.mem_cons_of_mem _ hh)
    show scanEq pre (c :: cs) = (pre ++ c :: cs, none)
    rw [scanEq, if_neg hc, ih (pre ++ [c]) hcs]
    simp

/-- C8: the boolean flag --fast (or -f, with one or two leading minuses)
selects fast mode; absence of flags selects comprehensive mode; --help and
-h print usage and exit 0 without collecting; any other single flag is a usage
error (exit 2), so no other flags exist; parsing stops at "--" or at the
first non-flag argument. -/
theorem c8_cli_flags :
    mainBehavior [] = MainOutcome.ran false ∧
    mainBehavior ["--fast"] = MainOutcome.ran true ∧
    mainBehavior ["-f"] = MainOutcome.ran true ∧
    mainBehavior ["-fast"] = MainOutcome.ran true ∧
    mainBehavior ["--f"] = MainOutcome.ran true ∧
    mainBehavior ["--help"] = MainOutcome.helpShown ∧
    mainBehavior ["-h"] = MainOutcome.helpShown ∧
    mainBehavior ["-help"] = MainOutcome.helpShown ∧
    mainBehavior ["--help"] ≠ MainOutcome.ran true ∧
    mainBehavior ["--help"] ≠ MainOutcome.ran false ∧
    mainBehavior ["--fast=false"] = MainOutcome.ran false ∧
    mainBehavior ["--"] = MainOutcome.ran false ∧
    mainBehavior ["abc", "-f"] = MainOutcome.ran false ∧
    (∀ (n0 : Char) (t : List Char), n0 ≠ '-' → n0 ≠ '=' → '=' ∉ t →
      n0 :: t ≠ "fast".data → n0 :: t ≠ "f".data →
      n0 :: t ≠ "help".data → n0 :: t ≠ "h".data →
      parseArgsCh false [('-' :: n0 :: t)] = ParseResult.errExit) := by
  refine ⟨rfl, rfl, rfl, rfl, rfl, rfl, rfl, rfl, by decide, by decide, rfl, rfl, rfl, ?_⟩
  intro n0 t h0 h1 h2 h3 h4 h5 h6
  have hsplit : splitFlagName (n0 :: t) = (n0 :: t, none) := by
    show scanEq [n0] t = (n0 :: t, none)
    rw [scanEq_no_eq t [n0] h2]
    rfl
  simp [parseArgsCh, hsplit, h0, h1, h3, h4, h5, h6]

theorem c8_cli_flags_witness :
    mainBehavior ["--fast"] = MainOutcome.ran true ∧
    parseArgsCh false [('-' :: 'x' :: [])] = ParseResult.errExit :=
  ⟨c8_cli_flags.2.1,
   c8_cli_flags.2.2.2.2.2.2.2.2.2.2.2.2.2 'x' [] (by decide) (by decide) (by decide)
     (by decide) (by decide) (by decide) (by decide)⟩

/-! ## Error containment and per-probe isolation (C2)

`GetSystemInfo` is a total Lean function of the world and the mode: no error
value and no exception can escape it.  The theorem below states the two
substantive halves of the propagation policy: (frame) replacing one probe's
external input — including by its failure value — changes no field other
than that probe's own, and (sentinel) each probe's underlying failure is
converted to the field's documented absent sentinel inside the probe. -/

theorem c2_probe_isolation (w : World) (m : Bool) :
    (∀ v f, f ≠ Field.RAM →
      fieldGet (GetSystemInfo { w with vm := v } m) f = fieldGet (GetSystemInfo w m) f) ∧
    (∀ v f, f ≠ Field.Swap →
      fieldGet (GetSystemInfo { w with swap := v } m) f = fieldGet (GetSystemInfo w m) f) ∧
    (∀ v f, f ≠ Field.OpenPorts →
      fieldGet (GetSystemInfo { w with connections := v } m) f = fieldGet (GetSystemInfo w m) f) ∧
    (∀ v f, f ≠ Field.Temperature →
      fieldGet (GetSystemInfo { w with temps := v } m) f = fieldGet (GetSystemInfo w m) f) ∧
    (∀ v f, f ≠ Field.Disk →
      fieldGet (GetSystemInfo { w with diskUsage := v } m) f = fieldGet (GetSystemInfo w m) f) ∧
    (∀ v f, f ≠ Field.Virtualization →
      fieldGet (GetSystemInfo { w with virt := v } m) f = fieldGet (GetSystemInfo w m) f) ∧
    (∀ v f, f ≠ Field.CPUUsage →
      fieldGet (GetSystemInfo { w with cpuPercent := v } m) f = fieldGet (GetSystemInfo w m) f) ∧
    (∀ v f, f ≠ Field.Hostname →
      fieldGet (GetSystemInfo { w with hostname := v } m) f = fieldGet (GetSystemInfo w m) f) ∧
    (∀ v f, f ≠ Field.OS →
      fieldGet (GetSystemInfo { w with osRelease := v } m) f = fieldGet (GetSystemInfo w m) f) ∧
    (∀ v v' f, f ≠ Field.IPAddress →
      fieldGet (GetSystemInfo { w with netDialIP := v, ifaceAddrs := v' } m) f =
        fieldGet (GetSystemInfo w m) f) ∧
    (w.host = none → (GetSystemInfo w m).OS = "" ∧ (GetSystemInfo w m).Kernel = "" ∧
      (GetSystemInfo w m).Uptime = "" ∧ (GetSystemInfo w m).Hostname = "") ∧
    (w.cpuInfo = none → (GetSystemInfo w m).CPU = "Unknown Processor" ∧
      (GetSystemInfo w m).CPUSpeed = "") ∧
    (w.cpuPercent = none → (GetSystemInfo w false).CPUUsage = "N/A") ∧
    (w.vm = none → (GetSystemInfo w m).RAM = "") ∧
    (w.swap = none → (GetSystemInfo w m).Swap = "None") ∧
    (w.connections = none → (GetSystemInfo w false).OpenPorts = "Unknown") ∧
    (w.temps = none → (GetSystemInfo w false).Temperature = "") ∧
    (w.diskUsage = none → (GetSystemInfo w m).Disk = "N/A") ∧
    (w.virt = none → (GetSystemInfo w m).Virtualization = "") ∧
    (w.goos ≠ GOOS.windows → w.getenv "SHELL" = "" → (GetSystemInfo w m).Shell = "Unknown") ∧
    (w.goos = GOOS.other → (GetSystemInfo w false).Packages = "None detected") ∧
    (∀ n a, w.cmdOut n a = none → runCommand w n a = "") := by
  refine ⟨?_, ?_, ?_, ?_, ?_, ?_, ?_, ?_, ?_, ?_, ?_, ?_, ?_, ?_, ?_, ?_, ?_, ?_, ?_, ?_, ?_, ?_⟩
  · intro v f hf; cases f <;> first | exact absurd rfl hf | rfl
  · intro v f hf; cases f <;> first | exact absurd rfl hf | rfl
  · intro v f hf; cases f <;> first | exact absurd rfl hf | rfl
  · intro v f hf; cases f <;> first | exact absurd rfl hf | rfl
  · intro v f hf; cases f <;> first | exact absurd rfl hf | rfl
  · intro v f hf; cases f <;> first | exact absurd rfl hf | rfl
  · intro v f hf; cases f <;> first | exact absurd rfl hf | rfl
  · intro v f hf; cases f <;> first | exact absurd rfl hf | rfl
  · intro v f hf; cases f <;> first | exact absurd rfl hf | rfl
  · intro v v' f hf; cases f <;> first | exact absurd rfl hf | rfl
  · intro h; refine ⟨?_, ?_, ?_, ?_⟩ <;> simp [GetSystemInfo, h]
  · intro h
    exact ⟨by simp [GetSystemInfo, getCPUInfoDetailed, h], by simp [GetSystemInfo, h]⟩
  · intro h; simp [GetSystemInfo, cpuUsageStr, h]
  · intro h; simp [GetSystemInfo, h]
  · intro h; simp [GetSystemInfo, h]
  · intro h; simp [GetSystemInfo, getOpenPorts, h]
  · intro h; simp [GetSystemInfo, getTemperatures, h]
  · intro h; simp [GetSystemInfo, getDisk, h]
  · intro h; simp [GetSystemInfo, getVirtualization, h]
  · intro h1 h2; simp [GetSystemInfo, getShell, h1, h2]
  · intro h; simp [GetSystemInfo, getPackageCounts, h]
  · intro n a h; simp [runCommand, h]

theorem c2_probe_isolation_witness :
    (fieldGet (GetSystemInfo { wBase with vm := none } false) Field.Swap =
       fieldGet (GetSystemInfo wBase false) Field.Swap) ∧
    ((GetSystemInfo wBase false).OS = "" ∧ (GetSystemInfo wBase false).Kernel = "" ∧
      (GetSystemInfo wBase false).Uptime = "" ∧ (GetSystemInfo wBase false).Hostname = "") ∧
    ((GetSystemInfo wBase false).CPU = "Unknown Processor" ∧
      (GetSystemInfo wBase false).CPUSpeed = "") ∧
    (GetSystemInfo wBase false).CPUUsage = "N/A" ∧
    (GetSystemInfo wBase false).RAM = "" ∧
    (GetSystemInfo wBase false).Swap = "None" ∧
    (GetSystemInfo wBase false).OpenPorts = "Unknown" ∧
    (GetSystemInfo wBase false).Temperature = "" ∧
    (GetSystemInfo wBase false).Disk = "N/A" ∧
    (GetSystemInfo wBase false).Virtualization = "" ∧
    (GetSystemInfo wBase false).Shell = "Unknown" ∧
    runCommand wBase "sh" ["-c", "lsb_release -a"] = "" :=
  ⟨(c2_probe_isolation wBase false).1 none Field.Swap (by decide),
   (c2_probe_isolation wBase false).2.2.2.2.2.2.2.2.2.2.1 rfl,
   (c2_probe_isolation wBase false).2.2.2.2.2.2.2.2.2.2.2.1 rfl,
   (c2_probe_isolation wBase false).2.2.2.2.2.2.2.2.2.2.2.2.1 rfl,
   (c2_probe_isolation wBase false).2.2.2.2.2.2.2.2.2.2.2.2.2.1 rfl,
   (c2_probe_isolation wBase false).2.2.2.2.2.2.2.2.2.2.2.2.2.2.1 rfl,
   (c2_probe_isolation wBase false).2.2.2.2.2.2.2.2.2.2.2.2.2.2.2.1 rfl,
   (c2_probe_isolation wBase false).2.2.2.2.2.2.2.2.2.2.2.2.2.2.2.2.1 rfl,
   (c2_probe_isolation wBase false).2.2.2.2.2.2.2.2.2.2.2.2.2.2.2.2.2.1 rfl,
   (c2_probe_isolation wBase false).2.2.2.2.2.2.2.2.2.2.2.2.2.2.2.2.2.2.1 rfl,
   (c2_probe_isolation wBase false).2.2.2.2.2.2.2.2.2.2.2.2.2.2.2.2.2.2.2.1
     (by decide) rfl,
   (c2_probe_isolation wBase false).2.2.2.2.2.2.2.2.2.2.2.2.2.2.2.2.2.2.2.2.2
     "sh" ["-c", "lsb_release -a"] rfl⟩

/-! ## Environment-variable consumption (C6)

Which probe outputs can an environment variable influence?  One congruence
lemma per environment-reading probe records exactly the variables it reads. -/

theorem getShell_congr (w w' : World) (hg : w'.goos = w.goos) (hc : w'.cmdOut = w.cmdOut)
    (h1 : w'.getenv "SHELL" = w.getenv "SHELL")
    (h2 : w'.getenv "PSModulePath" = w.getenv "PSModulePath")
    (h3 : w'.getenv "ComSpec" = w.getenv "ComSpec")
    (h4 : w'.getenv "WT_SESSION" = w.getenv "WT_SESSION") :
    getShell w' = getShell w := by
  simp only [getShell, shellFromPath, runCommand, runShellCommand, hg, hc, h1, h2, h3, h4]

theorem getTerminal_congr (w w' : World)
    (h1 : w'.getenv "TERM_PROGRAM" = w.getenv "TERM_PROGRAM")
    (h2 : w'.getenv "TERM" = w.getenv "TERM") :
    getTerminal w' = getTerminal w := by
  simp only [getTerminal, h1, h2]

theorem getWindowManager_congr (w w' : World) (hg : w'.goos = w.goos)
    (hc : w'.cmdOut = w.cmdOut)
    (h1 : w'.getenv "WAYLAND_DISPLAY" = w.getenv "WAYLAND_DISPLAY")
    (h2 : w'.getenv "XDG_SESSION_TYPE" = w.getenv "XDG_SESSION_TYPE")
    (h3 : w'.getenv "XDG_CURRENT_DESKTOP" = w.getenv "XDG_CURRENT_DESKTOP")
    (h4 : w'.getenv "DESKTOP_SESSION" = w.getenv "DESKTOP_SESSION") :
    getWindowManager w' = getWindowManager w := by
  simp only [getWindowManager, runShellCommand, hg, hc, h1, h2, h3, h4]

theorem getSystemLocale_congr (w w' : World) (hg : w'.goos = w.goos)
    (hc : w'.cmdOut = w.cmdOut)
    (h1 : w'.getenv "LANG" = w.getenv "LANG")
    (h2 : w'.getenv "LC_ALL" = w.getenv "LC_ALL") :
    getSystemLocale w' = getSystemLocale w := by
  simp only [getSystemLocale, runShellCommand, hg, hc, h1, h2]

theorem getDesktopEnvironment_congr (w w' : World)
    (h1 : w'.getenv "XDG_CURRENT_DESKTOP" = w.getenv "XDG_CURRENT_DESKTOP")
    (h2 : w'.getenv "DESKTOP_SESSION" = w.getenv "DESKTOP_SESSION") :
    getDesktopEnvironment w' = getDesktopEnvironment w := by
  simp only [getDesktopEnvironment, h1, h2]

theorem getResolution_congr (w w' : World) (hg : w'.goos = w.goos)
    (hc : w'.cmdOut = w.cmdOut)
    (h1 : w'.getenv "DISPLAY" = w.getenv "DISPLAY")
    (h2 : w'.getenv "WAYLAND_DISPLAY" = w.getenv "WAYLAND_DISPLAY") :
    getResolution w' = getResolution w := by
  simp only [getResolution, runShellCommand, hg, hc, h1, h2]

/-- A Wayland GNOME session. -/
def gWm1 : String → String := fun v =>
  if v = "WAYLAND_DISPLAY" then "wayland-0"
  else if v = "XDG_SESSION_TYPE" then "wayland"
  else if v = "XDG_CURRENT_DESKTOP" then "gnome" else ""

def wWm1 : World := { wBase with getenv := gWm1 }

/-- The same session with only XDG_CURRENT_DESKTOP changed to "kde". -/
def wWm2 : World :=
  { wBase with getenv := fun v => if v = "XDG_CURRENT_DESKTOP" then "kde" else gWm1 v }

/-- C6 counterexample: changing the single variable XDG_CURRENT_DESKTOP
(gnome to kde, everything else identical) changes the output of TWO probes:
the window-manager probe (Mutter (Wayland) to KWin (Wayland)) and the
desktop-environment probe (Gnome to Kde).  So that variable is not consumed
by exactly one probe. -/
theorem c6_env_two_probes_counterexample :
    wWm1.getenv "XDG_CURRENT_DESKTOP" ≠ wWm2.getenv "XDG_CURRENT_DESKTOP" ∧
    getWindowManager wWm1 = "Mutter (Wayland)" ∧
    getWindowManager wWm2 = "KWin (Wayland)" ∧
    getDesktopEnvironment wWm1 = "Gnome" ∧
    getDesktopEnvironment wWm2 = "Kde" ∧
    getWindowManager wWm1 ≠ getWindowManager wWm2 ∧
    getDesktopEnvironment wWm1 ≠ getDesktopEnvironment wWm2 :=
  ⟨by decide, rfl, rfl, rfl, rfl, by decide, by decide⟩

/-- C6 (amended): SHELL, DISPLAY, XDG_SESSION_TYPE, the locale pair
LANG/LC_ALL and the terminal pair TERM_PROGRAM/TERM are each consumed by
exactly one probe — changing one of them leaves every other
environment-reading probe's output unchanged.  XDG_CURRENT_DESKTOP and
DESKTOP_SESSION however are each read by both the window-manager and the
desktop-environment probes, and WAYLAND_DISPLAY by both the window-manager
and the resolution probes; a change of such a variable still influences no
probe outside its pair. -/
theorem c6_env_isolation_amended (w w' : World)
    (hg : w'.goos = w.goos) (hc : w'.cmdOut = w.cmdOut) :
    ((∀ v, v ≠ "SHELL" → w'.getenv v = w.getenv v) →
      getTerminal w' = getTerminal w ∧ getWindowManager w' = getWindowManager w ∧
      getSystemLocale w' = getSystemLocale w ∧
      getDesktopEnvironment w' = getDesktopEnvironment w ∧
      getResolution w' = getResolution w) ∧
    ((∀ v, v ≠ "LANG" → v ≠ "LC_ALL" → w'.getenv v = w.getenv v) →
      getShell w' = getShell w ∧ getTerminal w' = getTerminal w ∧
      getWindowManager w' = getWindowManager w ∧
      getDesktopEnvironment w' = getDesktopEnvironment w ∧
      getResolution w' = getResolution w) ∧
    ((∀ v, v ≠ "DISPLAY" → w'.getenv v = w.getenv v) →
      getShell w' = getShell w ∧ getTerminal w' = getTerminal w ∧
      getWindowManager w' = getWindowManager w ∧
      getSystemLocale w' = getSystemLocale w ∧
      getDesktopEnvironment w' = getDesktopEnvironment w) ∧
    ((∀ v, v ≠ "XDG_SESSION_TYPE" → w'.getenv v = w.getenv v) →
      getShell w' = getShell w ∧ getTerminal w' = getTerminal w ∧
      getSystemLocale w' = getSystemLocale w ∧
      getDesktopEnvironment w' = getDesktopEnvironment w ∧
      getResolution w' = getResolution w) ∧
    ((∀ v, v ≠ "TERM_PROGRAM" → v ≠ "TERM" → w'.getenv v = w.getenv v) →
      getShell w' = getShell w ∧ getWindowManager w' = getWindowManager w ∧
      getSystemLocale w' = getSystemLocale w ∧
      getDesktopEnvironment w' = getDesktopEnvironment w ∧
      getResolution w' = getResolution w) ∧
    ((∀ v, v ≠ "XDG_CURRENT_DESKTOP" → w'.getenv v = w.getenv v) →
      getShell w' = getShell w ∧ getTerminal w' = getTerminal w ∧
      getSystemLocale w' = getSystemLocale w ∧ getResolution w' = getResolution w) ∧
    ((∀ v, v ≠ "DESKTOP_SESSION" → w'.getenv v = w.getenv v) →
      getShell w' = getShell w ∧ getTerminal w' = getTerminal w ∧
      getSystemLocale w' = getSystemLocale w ∧ getResolution w' = getResolution w) ∧
    ((∀ v, v ≠ "WAYLAND_DISPLAY" → w'.getenv v = w.getenv v) →
      getShell w' = getShell w ∧ getTerminal w' = getTerminal w ∧
      getSystemLocale w' = getSystemLocale w ∧
      getDesktopEnvironment w' = getDesktopEnvironment w) := by
  refine ⟨?_, ?_, ?_, ?_, ?_, ?_, ?_, ?_⟩
  · intro h
    exact ⟨getTerminal_congr w w' (h _ (by decide)) (h _ (by decide)),
      getWindowManager_congr w w' hg hc (h _ (by decide)) (h _ (by decide))
        (h _ (by decide)) (h _ (by decide)),
      getSystemLocale_congr w w' hg hc (h _ (by decide)) (h _ (by decide)),
      getDesktopEnvironment_congr w w' (h _ (by decide)) (h _ (by decide)),
      getResolution_congr w w' hg hc (h _ (by decide)) (h _ (by decide))⟩
  · intro h
    exact ⟨getShell_congr w w' hg hc (h _ (by decide) (by decide)) (h _ (by decide) (by decide))
        (h _ (by decide) (by decide)) (h _ (by decide) (by decide)),
      getTerminal_congr w w' (h _ (by decide) (by decide)) (h _ (by decide) (by decide)),
      getWindowManager_congr w w' hg hc (h _ (by decide) (by decide))
        (h _ (by decide) (by decide)) (h _ (by decide) (by decide))
        (h _ (by decide) (by decide)),
      getDesktopEnvironment_congr w w' (h _ (by decide) (by decide))
        (h _ (by decide) (by decide)),
      getResolution_congr w w' hg hc (h _ (by decide) (by decide))
        (h _ (by decide) (by decide))⟩
  · intro h
    exact ⟨getShell_congr w w' hg hc (h _ (by decide)) (h _ (by decide)) (h _ (by decide))
        (h _ (by decide)),
      getTerminal_congr w w' (h _ (by decide)) (h _ (by decide)),
      getWindowManager_congr w w' hg hc (h _ (by decide)) (h _ (by decide))
        (h _ (by decide)) (h _ (by decide)),
      getSystemLocale_congr w w' hg hc (h _ (by decide)) (h _ (by decide)),
      getDesktopEnvironment_congr w w' (h _ (by decide)) (h _ (by decide))⟩
  · intro h
    exact ⟨getShell_congr w w' hg hc (h _ (by decide)) (h _ (by decide)) (h _ (by decide))
        (h _ (by decide)),
      getTerminal_congr w w' (h _ (by decide)) (h _ (by decide)),
      getSystemLocale_congr w w' hg hc (h _ (by decide)) (h _ (by decide)),
      getDesktopEnvironment_congr w w' (h _ (by decide)) (h _ (by decide)),
      getResolution_congr w w' hg hc (h _ (by decide)) (h _ (by decide))⟩
  · intro h
    exact ⟨getShell_congr w w' hg hc (h _ (by decide) (by decide)) (h _ (by decide) (by decide))
        (h _ (by decide) (by decide)) (h _ (by decide) (by decide)),
      getWindowManager_congr w w' hg hc (h _ (by decide) (by decide))
        (h _ (by decide) (by decide)) (h _ (by decide) (by decide))
        (h _ (by decide) (by decide)),
      getSystemLocale_congr w w' hg hc (h _ (by decide) (by decide))
        (h _ (by decide) (by decide)),
      getDesktopEnvironment_congr w w' (h _ (by decide) (by decide))
        (h _ (by decide) (by decide)),
      getResolution_congr w w' hg hc (h _ (by decide) (by decide))
        (h _ (by decide) (by decide))⟩
  · intro h
    exact ⟨getShell_congr w w' hg hc (h _ (by decide)) (h _ (by decide)) (h _ (by decide))
        (h _ (by decide)),
      getTerminal_congr w w' (h _ (by decide)) (h _ (by decide)),
      getSystemLocale_congr w w' hg hc (h _ (by decide)) (h _ (by decide)),
      getResolution_congr w w' hg hc (h _ (by decide)) (h _ (by decide))⟩
  · intro h
    exact ⟨getShell_congr w w' hg hc (h _ (by decide)) (h _ (by decide)) (h _ (by decide))
        (h _ (by decide)),
      getTerminal_congr w w' (h _ (by decide)) (h _ (by decide)),
      getSystemLocale_congr w w' hg hc (h _ (by decide)) (h _ (by decide)),
      getResolution_congr w w' hg hc (h _ (by decide)) (h _ (by decide))⟩
  · intro h
    exact ⟨getShell_congr w w' hg hc (h _ (by decide)) (h _ (by decide)) (h _ (by decide))
        (h _ (by decide)),
      getTerminal_congr w w' (h _ (by decide)) (h _ (by decide)),
      getSystemLocale_congr w w' hg hc (h _ (by decide)) (h _ (by decide)),
      getDesktopEnvironment_congr w w' (h _ (by decide)) (h _ (by decide))⟩

theorem c6_env_isolation_amended_witness :
    (getTerminal wBase = getTerminal wBase ∧
     getWindowManager wBase = getWindowManager wBase ∧
     getSystemLocale wBase = getSystemLocale wBase ∧
     getDesktopEnvironment wBase = getDesktopEnvironment wBase ∧
     getResolution wBase = getResolution wBase) ∧
    (getShell wBase = getShell wBase ∧ getTerminal wBase = getTerminal wBase ∧
     getSystemLocale wBase = getSystemLocale wBase ∧
     getResolution wBase = getResolution wBase) :=
  ⟨(c6_env_isolation_amended wBase wBase rfl rfl).1 (fun _ _ => rfl),
   (c6_env_isolation_amended wBase wBase rfl rfl).2.2.2.2.2.1 (fun _ _ => rfl)⟩

end KernelView
